import Mathlib

/-!
# RPiZero-Camera-C: capture session set-up, teardown and buffer circulation

A shallow embedding of `src/camera_init.c` (`camera_buffer_callback`,
`camera_init`, `camera_release`) and of the capture loop of
`src/capture_test.c` (`main`, lines 35-60).

Conventions of the embedding.

* The MMAL driver is an external collaborator.  It is represented by a record
  `Driver` holding the answer the driver gives to every call the program makes
  (a mock driver); all theorems quantify over every such record.
* Every function returns, next to its C result, the list of driver calls it
  issued, in program order (`Call`).  A call that returns something carries
  the returned status in the event.
* A C pointer is an `Option`: `none` is `NULL`.  `state->camera_output`, which
  in C points at `camera->output[i]`, is represented by the index `i`.
* A component has at least one output port (`MMAL_COMPONENT_T.has_output`), so
  that the port chosen by `camera_init` is always within the output array.
* `int` is a two's complement 32 bit integer: products are wrapped with
  `wrap_int`; `uint32_t` conversions are `to_uint32`.
* `fprintf`/`printf` diagnostics are not driver calls and are left out.
* The capture loop of `main` runs while less than two seconds have elapsed;
  the iterations it makes and what the environment does in each of them are
  given as a list of `Poll`s.  The in-place transform `invert_colors` touches
  only the payload of the buffer and issues no driver call.
-/

namespace CameraInit

/-! ## Driver data types (from the MMAL headers included by `camera_init.h`) -/

/-- Status code returned by driver calls; `MMAL_SUCCESS` is zero. -/
abbrev MMAL_STATUS_T := Nat

/-- The success status. -/
def MMAL_SUCCESS : MMAL_STATUS_T := 0

/-- Four character code of the RGB24 pixel encoding. -/
def MMAL_ENCODING_RGB24 : Nat := 0x33424752

/-- Reduction of a mathematical integer to the range of a 32 bit C `int`. -/
def wrap_int (x : Int) : Int := (x + 2147483648) % 4294967296 - 2147483648

/-- Multiplication of two C `int` values. -/
def int_mul (a b : Int) : Int := wrap_int (a * b)

/-- Conversion of a C `int` to `uint32_t`. -/
def to_uint32 (x : Int) : Nat := (x % 4294967296).toNat

/-- Buffer header: an identity and the length of the payload it reports. -/
structure MMAL_BUFFER_HEADER_T where
  id : Nat
  length : Nat
deriving DecidableEq, Repr

/-- Queue handle. -/
structure MMAL_QUEUE_T where
  id : Nat
deriving DecidableEq, Repr

/-- Buffer pool: `headers_num` and the buffer headers waiting in `pool->queue`. -/
structure MMAL_POOL_T where
  headers_num : Nat
  queue : List MMAL_BUFFER_HEADER_T
deriving DecidableEq, Repr

/-- Port: the elementary stream format fields written by `camera_init`, the
buffer requirements and the user data pointer. -/
structure MMAL_PORT_T where
  encoding : Nat
  width : Nat
  height : Nat
  crop_x : Int
  crop_y : Int
  crop_width : Int
  crop_height : Int
  frame_rate_num : Int
  frame_rate_den : Int
  buffer_size_recommended : Nat
  buffer_num_recommended : Nat
  buffer_size : Nat
  buffer_num : Nat
  userdata : Option MMAL_QUEUE_T
deriving DecidableEq, Repr

/-- Component: its array of output ports.  A component handed out by
`mmal_component_create` has at least one output port; a component without
output port, on which `camera_init` would read `output[0]` past the array, is
not a value of this type. -/
structure MMAL_COMPONENT_T where
  output : List MMAL_PORT_T
  has_output : 0 < output.length

/-- Number of output ports of the component (`output_num`). -/
def MMAL_COMPONENT_T.output_num (c : MMAL_COMPONENT_T) : Nat := c.output.length

/-- The port `c->output[i]`, for an index within the array. -/
def MMAL_COMPONENT_T.port (c : MMAL_COMPONENT_T) (i : Fin c.output.length) : MMAL_PORT_T :=
  c.output.get i

/-- Store through the pointer `c->output[i]`, for an index within the array. -/
def MMAL_COMPONENT_T.store (c : MMAL_COMPONENT_T) (i : Fin c.output.length)
    (p : MMAL_PORT_T) : MMAL_COMPONENT_T :=
  { output := c.output.set i p
    has_output := by rw [List.length_set]; exact c.has_output }

/-- The session record of `camera_init.h`. -/
structure CameraState where
  camera : Option MMAL_COMPONENT_T
  camera_output : Option Nat
  pool : Option MMAL_POOL_T
  callback_queue : Option MMAL_QUEUE_T
  width : Int
  height : Int
  framerate : Int

/-- One driver call, with its arguments and the status it returned. -/
inductive Call where
  | bcm_host_init
  | component_create (status : MMAL_STATUS_T)
  | port_format_commit (port : Option Nat) (status : MMAL_STATUS_T)
  | port_pool_create (port : Option Nat) (headers : Nat) (payload_size : Nat) (created : Bool)
  | queue_create (created : Bool)
  | port_enable (port : Option Nat) (status : MMAL_STATUS_T)
  | component_enable (status : MMAL_STATUS_T)
  | pool_queue_get (buffer : Option Nat)
  | queue_get (queue : Option Nat) (buffer : Option Nat)
  | queue_put (queue : Nat) (buffer : Nat)
  | port_send_buffer (port : Option Nat) (buffer : Nat) (status : MMAL_STATUS_T)
  | buffer_header_release (buffer : Nat)
  | buffer_header_mem_lock (buffer : Nat)
  | buffer_header_mem_unlock (buffer : Nat)
  | port_parameter_set_capture (port : Option Nat) (value : Nat) (status : MMAL_STATUS_T)
  | port_disable (port : Option Nat) (status : MMAL_STATUS_T)
  | component_disable (status : MMAL_STATUS_T)
  | queue_destroy (queue : Nat)
  | port_pool_destroy (port : Option Nat)
  | component_destroy
  | usleep (microseconds : Nat)
deriving DecidableEq, Repr

/-- The answers of the driver to the calls made by the program.

* `component_create`, `camera`: status of `mmal_component_create` and the
  component it hands out on success.
* `port_format_commit`: status of the commit and the port as the driver leaves
  it (it publishes `buffer_size_recommended` and `buffer_num_recommended`).
* `port_pool_create headers payload_size`, `queue_create`: the object created,
  or `none` for `NULL`.
* `port_send_buffer`: status of the submission of a pool buffer.
* `release_returns_to_pool`: whether `mmal_buffer_header_release` puts the
  header back at the tail of `pool->queue`; the theorems hold either way.
* `port_parameter_set_capture value`: status of setting the capture parameter.
* the other fields: the status of the call of the same name. -/
structure Driver where
  component_create : MMAL_STATUS_T
  camera : MMAL_COMPONENT_T
  port_format_commit : MMAL_PORT_T → MMAL_STATUS_T × MMAL_PORT_T
  port_pool_create : Nat → Nat → Option MMAL_POOL_T
  queue_create : Option MMAL_QUEUE_T
  port_enable : MMAL_STATUS_T
  component_enable : MMAL_STATUS_T
  port_send_buffer : MMAL_BUFFER_HEADER_T → MMAL_STATUS_T
  release_returns_to_pool : Bool
  port_parameter_set_capture : Nat → MMAL_STATUS_T
  port_disable : MMAL_STATUS_T
  component_disable : MMAL_STATUS_T

/-! ## `camera_init.c` -/

/-- Lines 11-19: the buffer callback registered on the capture port. -/
def camera_buffer_callback (port : MMAL_PORT_T) (buffer : MMAL_BUFFER_HEADER_T) :
    List Call :=
  match port.userdata with
  | some queue => [Call.queue_put queue.id buffer.id]
  | none => [Call.buffer_header_release buffer.id]

/-- Lines 42-48: index of the output port chosen as the video port. -/
def select_video_port (camera : MMAL_COMPONENT_T) : Nat :=
  if camera.output_num ≥ 2 then 1 else 0

/-- The index chosen by lines 42-48 as an index into the output array: it is
1 only when there are at least two ports, and 0 otherwise, where the component
has at least one. -/
def video_port_index (camera : MMAL_COMPONENT_T) : Fin camera.output.length :=
  ⟨select_video_port camera, by
    have hpos := camera.has_output
    unfold select_video_port MMAL_COMPONENT_T.output_num
    split <;> omega⟩

/-- Lines 52-61: the format written into the port before the commit. -/
def set_format (port : MMAL_PORT_T) (width height framerate : Int) : MMAL_PORT_T :=
  { port with
    encoding := MMAL_ENCODING_RGB24
    width := to_uint32 width
    height := to_uint32 height
    crop_x := 0
    crop_y := 0
    crop_width := width
    crop_height := height
    frame_rate_num := framerate
    frame_rate_den := 1 }

/-- The C expression `width*height*3`, converted to `uint32_t` as it is when
compared with and assigned to `buffer_size`. -/
def frame_bytes (width height : Int) : Nat :=
  to_uint32 (int_mul (int_mul width height) 3)

/-- Lines 71-76: buffer size and count written into the port. -/
def set_buffer_requirements (port : MMAL_PORT_T) (width height : Int) : MMAL_PORT_T :=
  { port with
    buffer_size :=
      if port.buffer_size_recommended > frame_bytes width height
      then port.buffer_size_recommended
      else frame_bytes width height
    buffer_num :=
      if port.buffer_num_recommended > 3 then port.buffer_num_recommended else 3 }

/-- Lines 121-132: the loop sending the pool buffers to the port.  The first
argument counts the iterations left, the list is the content of `pool->queue`.
Returns the pool queue after the loop and the calls issued. -/
def send_pool_buffers (d : Driver) (port : Option Nat) :
    Nat → List MMAL_BUFFER_HEADER_T → List MMAL_BUFFER_HEADER_T × List Call
  | 0, queue => (queue, [])
  | n + 1, [] =>
    let r := send_pool_buffers d port n []
    (r.1, Call.pool_queue_get none :: r.2)
  | n + 1, buffer :: rest =>
    let status := d.port_send_buffer buffer
    if status ≠ MMAL_SUCCESS then
      let r := send_pool_buffers d port n
        (if d.release_returns_to_pool then rest ++ [buffer] else rest)
      (r.1, Call.pool_queue_get (some buffer.id)
              :: Call.port_send_buffer port buffer.id status
              :: Call.buffer_header_release buffer.id :: r.2)
    else
      let r := send_pool_buffers d port n rest
      (r.1, Call.pool_queue_get (some buffer.id)
              :: Call.port_send_buffer port buffer.id status :: r.2)

/-- Result of `camera_init`: the returned `int`, the session record and the
driver calls issued. -/
structure InitResult where
  ret : Int
  state : CameraState
  trace : List Call

/-- Lines 25-148: `camera_init`. -/
def camera_init (d : Driver) (_state : CameraState) (width height framerate : Int) :
    InitResult :=
  let state : CameraState :=
    { camera := none, camera_output := none, pool := none, callback_queue := none,
      width := width, height := height, framerate := framerate }
  let t1 := [Call.bcm_host_init, Call.component_create d.component_create]
  if d.component_create ≠ MMAL_SUCCESS then
    { ret := -1, state := state, trace := t1 }
  else
    let camera := d.camera
    let i := select_video_port camera
    let video_port := some i
    let state := { state with camera := some camera, camera_output := video_port }
    let port := set_format (camera.port (video_port_index camera)) width height framerate
    let commit := d.port_format_commit port
    let port := commit.2
    let t2 := t1 ++ [Call.port_format_commit video_port commit.1]
    if commit.1 ≠ MMAL_SUCCESS then
      { ret := -1, state := { state with camera := some (camera.store (video_port_index camera) port) },
        trace := t2 ++ [Call.component_destroy] }
    else
      let port := set_buffer_requirements port width height
      let state := { state with camera := some (camera.store (video_port_index camera) port) }
      let pool := d.port_pool_create port.buffer_num port.buffer_size
      let t3 := t2 ++ [Call.port_pool_create video_port port.buffer_num port.buffer_size
                        pool.isSome]
      match pool with
      | none =>
        { ret := -1, state := state, trace := t3 ++ [Call.component_destroy] }
      | some pool =>
        let state := { state with pool := some pool }
        let t4 := t3 ++ [Call.queue_create d.queue_create.isSome]
        match d.queue_create with
        | none =>
          { ret := -1, state := state,
            trace := t4 ++ [Call.port_pool_destroy video_port, Call.component_destroy] }
        | some queue =>
          let state := { state with callback_queue := some queue }
          let port := { port with userdata := some queue }
          let state := { state with camera := some (camera.store (video_port_index camera) port) }
          let t5 := t4 ++ [Call.port_enable video_port d.port_enable]
          if d.port_enable ≠ MMAL_SUCCESS then
            { ret := -1, state := state,
              trace := t5 ++ [Call.queue_destroy queue.id,
                              Call.port_pool_destroy video_port,
                              Call.component_destroy] }
          else
            let t6 := t5 ++ [Call.component_enable d.component_enable]
            if d.component_enable ≠ MMAL_SUCCESS then
              { ret := -1, state := state,
                trace := t6 ++ [Call.port_disable video_port d.port_disable,
                                Call.queue_destroy queue.id,
                                Call.port_pool_destroy video_port,
                                Call.component_destroy] }
            else
              let sent := send_pool_buffers d video_port pool.headers_num pool.queue
              let state := { state with pool := some { pool with queue := sent.1 } }
              let status := d.port_parameter_set_capture 1
              let t7 := t6 ++ sent.2 ++ [Call.port_parameter_set_capture video_port 1 status]
              if status ≠ MMAL_SUCCESS then
                { ret := -1, state := state,
                  trace := t7 ++ [Call.port_disable video_port d.port_disable,
                                  Call.component_disable d.component_disable,
                                  Call.queue_destroy queue.id,
                                  Call.port_pool_destroy video_port,
                                  Call.component_destroy] }
              else
                { ret := 0, state := state, trace := t7 }

/-- Result of `camera_release`: the session record afterwards and the driver
calls issued. -/
structure ReleaseResult where
  state : CameraState
  trace : List Call

/-- Lines 153-179: `camera_release`. -/
def camera_release (d : Driver) (state : CameraState) : ReleaseResult :=
  match state.camera with
  | none => { state := state, trace := [] }
  | some _ =>
    let t1 := [Call.port_parameter_set_capture state.camera_output 0
                 (d.port_parameter_set_capture 0),
               Call.port_disable state.camera_output d.port_disable,
               Call.component_disable d.component_disable]
    let r2 : CameraState × List Call :=
      match state.pool with
      | some _ =>
        ({ state with pool := none }, [Call.port_pool_destroy state.camera_output])
      | none => (state, [])
    let r3 : CameraState × List Call :=
      match r2.1.callback_queue with
      | some queue =>
        ({ r2.1 with callback_queue := none }, [Call.queue_destroy queue.id])
      | none => (r2.1, [])
    { state := { r3.1 with camera := none },
      trace := t1 ++ r2.2 ++ r3.2 ++ [Call.component_destroy] }

/-! ## `capture_test.c` -/

/-- What the environment does in one iteration of the capture loop: the result
of the non-blocking `mmal_queue_get` on the callback queue and the status the
port gives to the resubmission, when one is made. -/
structure Poll where
  filled_buffer : Option MMAL_BUFFER_HEADER_T
  send_status : MMAL_STATUS_T
deriving DecidableEq, Repr

/-- The buffer a call takes from the pool queue, if it is such a call. -/
def Call.takenBuffer : Call → Option Nat
  | Call.pool_queue_get (some b) => some b
  | _ => none

/-- The buffer a call submits to a port, if it is such a call. -/
def Call.submittedBuffer : Call → Option Nat
  | Call.port_send_buffer _ b _ => some b
  | _ => none

/-- The buffer a call submits to a port with success, if it is such a call. -/
def Call.acceptedBuffer : Call → Option Nat
  | Call.port_send_buffer _ b s => if s = MMAL_SUCCESS then some b else none
  | _ => none

/-- The buffer a call releases, if it is such a call. -/
def Call.releasedBuffer : Call → Option Nat
  | Call.buffer_header_release b => some b
  | _ => none

/-- The queue and buffer of a `mmal_queue_put`, if the call is one. -/
def Call.deliveredBuffer : Call → Option (Nat × Nat)
  | Call.queue_put q b => some (q, b)
  | _ => none

/-- Buffers taken from the pool queue, in order. -/
def taken (t : List Call) : List Nat := t.filterMap Call.takenBuffer

/-- Buffers submitted to a port, in order. -/
def submitted (t : List Call) : List Nat := t.filterMap Call.submittedBuffer

/-- Buffers whose submission the port accepted, in order. -/
def accepted (t : List Call) : List Nat := t.filterMap Call.acceptedBuffer

/-- Buffers released, in order. -/
def released (t : List Call) : List Nat := t.filterMap Call.releasedBuffer

/-- Pairs of queue and buffer put into a queue, in order. -/
def delivered (t : List Call) : List (Nat × Nat) := t.filterMap Call.deliveredBuffer

/-- Recognises `mmal_component_create`. -/
def Call.isComponentCreate : Call → Bool
  | Call.component_create _ => true
  | _ => false

/-- Recognises `mmal_component_destroy`. -/
def Call.isComponentDestroy : Call → Bool
  | Call.component_destroy => true
  | _ => false

/-- Recognises any `mmal_port_pool_create`. -/
def Call.isPoolCreate : Call → Bool
  | Call.port_pool_create _ _ _ _ => true
  | _ => false

/-- Recognises a `mmal_port_pool_create` that returned a pool. -/
def Call.isPoolCreated : Call → Bool
  | Call.port_pool_create _ _ _ created => created
  | _ => false

/-- Recognises `mmal_port_pool_destroy`. -/
def Call.isPoolDestroy : Call → Bool
  | Call.port_pool_destroy _ => true
  | _ => false

/-- Recognises a `mmal_queue_create` that returned a queue. -/
def Call.isQueueCreated : Call → Bool
  | Call.queue_create created => created
  | _ => false

/-- Recognises `mmal_queue_destroy`. -/
def Call.isQueueDestroy : Call → Bool
  | Call.queue_destroy _ => true
  | _ => false

/-- Recognises a successful `mmal_port_enable`. -/
def Call.isPortEnabled : Call → Bool
  | Call.port_enable _ s => decide (s = MMAL_SUCCESS)
  | _ => false

/-- Recognises `mmal_port_disable`. -/
def Call.isPortDisable : Call → Bool
  | Call.port_disable _ _ => true
  | _ => false

/-- Recognises a successful `mmal_component_enable`. -/
def Call.isComponentEnabled : Call → Bool
  | Call.component_enable s => decide (s = MMAL_SUCCESS)
  | _ => false

/-- Recognises `mmal_component_disable`. -/
def Call.isComponentDisable : Call → Bool
  | Call.component_disable _ => true
  | _ => false

/-- Recognises a call that is fatal to `camera_init` and failed. -/
def Call.isFatalFailure : Call → Bool
  | Call.port_format_commit _ s => decide (s ≠ MMAL_SUCCESS)
  | Call.port_pool_create _ _ _ created => !created
  | Call.queue_create created => !created
  | Call.port_enable _ s => decide (s ≠ MMAL_SUCCESS)
  | Call.component_enable s => decide (s ≠ MMAL_SUCCESS)
  | Call.port_parameter_set_capture _ 1 s => decide (s ≠ MMAL_SUCCESS)
  | _ => false

/-- Recognises the calls that belong to a buffer (get, send, release). -/
def Call.isBufferCall : Call → Bool
  | Call.pool_queue_get _ => true
  | Call.port_send_buffer _ _ _ => true
  | Call.buffer_header_release _ => true
  | _ => false

/-- The calls the sending loop issues for one buffer of the pool. -/
def buffer_calls (d : Driver) (port : Option Nat) (b : MMAL_BUFFER_HEADER_T) : List Call :=
  if d.port_send_buffer b ≠ MMAL_SUCCESS then
    [Call.pool_queue_get (some b.id),
     Call.port_send_buffer port b.id (d.port_send_buffer b),
     Call.buffer_header_release b.id]
  else
    [Call.pool_queue_get (some b.id),
     Call.port_send_buffer port b.id (d.port_send_buffer b)]

/-- The calls the sending loop issues for a list of buffers, one after the other. -/
def pool_calls (d : Driver) (port : Option Nat) : List MMAL_BUFFER_HEADER_T → List Call
  | [] => []
  | b :: rest => buffer_calls d port b ++ pool_calls d port rest

/-- The answer of the driver to the format commit of `camera_init`. -/
def committed (d : Driver) (width height framerate : Int) : MMAL_STATUS_T × MMAL_PORT_T :=
  d.port_format_commit
    (set_format (d.camera.port (video_port_index d.camera)) width height framerate)

/-- The video port after lines 71-76 of `camera_init`. -/
def negotiated_port (d : Driver) (width height framerate : Int) : MMAL_PORT_T :=
  set_buffer_requirements (committed d width height framerate).2 width height

/-- The answer of the driver to the pool creation of `camera_init`. -/
def created_pool (d : Driver) (width height framerate : Int) : Option MMAL_POOL_T :=
  d.port_pool_create (negotiated_port d width height framerate).buffer_num
    (negotiated_port d width height framerate).buffer_size

/-- The driver answers with success all calls of `camera_init` up to and
including the component enable (line 109), handing out `pool` and `queue`. -/
structure ReachesSending (d : Driver) (width height framerate : Int)
    (pool : MMAL_POOL_T) (queue : MMAL_QUEUE_T) : Prop where
  component_created : d.component_create = MMAL_SUCCESS
  format_committed : (committed d width height framerate).1 = MMAL_SUCCESS
  pool_created : created_pool d width height framerate = some pool
  queue_created : d.queue_create = some queue
  port_enabled : d.port_enable = MMAL_SUCCESS
  component_enabled : d.component_enable = MMAL_SUCCESS

/-- The calls of `camera_init` up to and including the component enable, when
all of them succeed. -/
def setup_calls (d : Driver) (width height framerate : Int) : List Call :=
  [Call.bcm_host_init,
   Call.component_create MMAL_SUCCESS,
   Call.port_format_commit (some (select_video_port d.camera)) MMAL_SUCCESS,
   Call.port_pool_create (some (select_video_port d.camera))
     (negotiated_port d width height framerate).buffer_num
     (negotiated_port d width height framerate).buffer_size true,
   Call.queue_create true,
   Call.port_enable (some (select_video_port d.camera)) MMAL_SUCCESS,
   Call.component_enable MMAL_SUCCESS]

/-- The unwind of `camera_init` after a failed capture start (lines 138-142). -/
def capture_unwind (d : Driver) (queue : MMAL_QUEUE_T) : List Call :=
  [Call.port_disable (some (select_video_port d.camera)) d.port_disable,
   Call.component_disable d.component_disable,
   Call.queue_destroy queue.id,
   Call.port_pool_destroy (some (select_video_port d.camera)),
   Call.component_destroy]

/-- The identity of the buffer a poll delivers, if it delivers one. -/
def Poll.buffer (p : Poll) : Option Nat := p.filled_buffer.map (fun b => b.id)

/-- A port as the camera component presents it before configuration. -/
def fresh_port : MMAL_PORT_T :=
  ⟨0, 0, 0, 0, 0, 0, 0, 0, 0, 0, 0, 0, 0, none⟩

/-- A camera component with the usual three output ports. -/
def camera3 : MMAL_COMPONENT_T :=
  { output := [fresh_port, fresh_port, fresh_port], has_output := by decide }

/-- A camera component with a single output port. -/
def camera1 : MMAL_COMPONENT_T :=
  { output := [fresh_port], has_output := by decide }

/-- Three buffer headers. -/
def buffers3 : List MMAL_BUFFER_HEADER_T := [⟨10, 0⟩, ⟨11, 0⟩, ⟨12, 0⟩]

/-- A driver for which every call succeeds; the commit recommends one buffer
of 1000 bytes. -/
def good_driver : Driver where
  component_create := MMAL_SUCCESS
  camera := camera3
  port_format_commit := fun p =>
    (MMAL_SUCCESS, { p with buffer_size_recommended := 1000, buffer_num_recommended := 1 })
  port_pool_create := fun n _ => some { headers_num := n, queue := buffers3 }
  queue_create := some ⟨7⟩
  port_enable := MMAL_SUCCESS
  component_enable := MMAL_SUCCESS
  port_send_buffer := fun _ => MMAL_SUCCESS
  release_returns_to_pool := true
  port_parameter_set_capture := fun _ => MMAL_SUCCESS
  port_disable := MMAL_SUCCESS
  component_disable := MMAL_SUCCESS

/-- A driver that rejects the format commit. -/
def commit_reject_driver : Driver :=
  { good_driver with port_format_commit := fun p => (1, p) }

/-- A driver that fails to create the callback queue. -/
def queue_fail_driver : Driver :=
  { good_driver with queue_create := none }

/-- A driver that refuses the capture parameter. -/
def capture_fail_driver : Driver :=
  { good_driver with port_parameter_set_capture := fun _ => 1 }

/-- A driver that refuses the buffer with identity 11. -/
def flaky_driver : Driver :=
  { good_driver with port_send_buffer := fun b => if b.id = 11 then 1 else 0 }

/-- A driver whose camera component has a single output port. -/
def single_port_driver : Driver :=
  { good_driver with camera := camera1 }

/-- The all-zero session record. -/
def zero_state : CameraState :=
  { camera := none, camera_output := none, pool := none, callback_queue := none,
    width := 0, height := 0, framerate := 0 }

/-! ## Lemmas on the sending loop -/

theorem send_pool_buffers_trace (d : Driver) (port : Option Nat)
    (q extra : List MMAL_BUFFER_HEADER_T) :
    (send_pool_buffers d port q.length (q ++ extra)).2 = pool_calls d port q := by
  induction q generalizing extra with
  | nil => simp [send_pool_buffers, pool_calls]
  | cons b rest ih =>
    simp only [List.length_cons, List.cons_append, send_pool_buffers, pool_calls, buffer_calls]
    by_cases hs : d.port_send_buffer b = MMAL_SUCCESS
    · simp [hs, ih]
    · cases hr : d.release_returns_to_pool
      · simp [hs, ih]
      · have h := ih (extra ++ [b])
        simp [hs, h]

theorem send_pool_buffers_full (d : Driver) (port : Option Nat)
    (q : List MMAL_BUFFER_HEADER_T) :
    (send_pool_buffers d port q.length q).2 = pool_calls d port q := by
  have h := send_pool_buffers_trace d port q []
  simpa using h

theorem send_pool_buffers_buffer_calls (d : Driver) (port : Option Nat) (n : Nat)
    (q : List MMAL_BUFFER_HEADER_T) :
    ∀ c ∈ (send_pool_buffers d port n q).2, c.isBufferCall = true := by
  induction n generalizing q with
  | zero => simp [send_pool_buffers]
  | succ n ih =>
    cases q with
    | nil =>
      simp only [send_pool_buffers, List.mem_cons]
      rintro c (rfl | hc)
      · rfl
      · exact ih [] c hc
    | cons b rest =>
      simp only [send_pool_buffers]
      split
      · simp only [List.mem_cons]
        rintro c (rfl | rfl | rfl | hc)
        · rfl
        · rfl
        · rfl
        · exact ih _ c hc
      · simp only [List.mem_cons]
        rintro c (rfl | rfl | hc)
        · rfl
        · rfl
        · exact ih _ c hc

theorem taken_pool_calls (d : Driver) (port : Option Nat) (q : List MMAL_BUFFER_HEADER_T) :
    taken (pool_calls d port q) = q.map (fun b => b.id) := by
  induction q with
  | nil => rfl
  | cons b rest ih =>
    unfold taken at ih ⊢
    simp only [pool_calls, List.filterMap_append, ih, buffer_calls]
    split <;> simp [List.filterMap_cons, Call.takenBuffer]

theorem submitted_pool_calls (d : Driver) (port : Option Nat)
    (q : List MMAL_BUFFER_HEADER_T) :
    submitted (pool_calls d port q) = q.map (fun b => b.id) := by
  induction q with
  | nil => rfl
  | cons b rest ih =>
    unfold submitted at ih ⊢
    simp only [pool_calls, List.filterMap_append, ih, buffer_calls]
    split <;> simp [List.filterMap_cons, Call.submittedBuffer]

theorem released_pool_calls (d : Driver) (port : Option Nat)
    (q : List MMAL_BUFFER_HEADER_T) :
    released (pool_calls d port q)
      = (q.filter (fun b => decide (d.port_send_buffer b ≠ MMAL_SUCCESS))).map
          (fun b => b.id) := by
  induction q with
  | nil => rfl
  | cons b rest ih =>
    unfold released at ih ⊢
    simp only [pool_calls, List.filterMap_append, ih, buffer_calls]
    by_cases hs : d.port_send_buffer b = MMAL_SUCCESS
    · simp [hs, List.filterMap_cons, Call.releasedBuffer]
    · simp [hs, List.filterMap_cons, Call.releasedBuffer]

theorem accepted_pool_calls (d : Driver) (port : Option Nat)
    (q : List MMAL_BUFFER_HEADER_T) :
    accepted (pool_calls d port q)
      = (q.filter (fun b => decide (d.port_send_buffer b = MMAL_SUCCESS))).map
          (fun b => b.id) := by
  induction q with
  | nil => rfl
  | cons b rest ih =>
    unfold accepted at ih ⊢
    simp only [pool_calls, List.filterMap_append, ih, buffer_calls]
    by_cases hs : d.port_send_buffer b = MMAL_SUCCESS
    · simp [hs, List.filterMap_cons, Call.acceptedBuffer]
    · simp [hs, List.filterMap_cons, Call.acceptedBuffer]

/-! ## Lemmas on the paths of `camera_init` -/

theorem camera_init_reaches_sending (d : Driver) (s : CameraState) (w h f : Int)
    (pool : MMAL_POOL_T) (queue : MMAL_QUEUE_T) (hr : ReachesSending d w h f pool queue) :
    (camera_init d s w h f).trace
      = setup_calls d w h f
        ++ (send_pool_buffers d (some (select_video_port d.camera))
              pool.headers_num pool.queue).2
        ++ Call.port_parameter_set_capture (some (select_video_port d.camera)) 1
              (d.port_parameter_set_capture 1)
          :: (if d.port_parameter_set_capture 1 ≠ MMAL_SUCCESS
              then capture_unwind d queue else [])
    ∧ (camera_init d s w h f).ret
      = (if d.port_parameter_set_capture 1 ≠ MMAL_SUCCESS then -1 else 0) := by
  obtain ⟨h1, h2, h3, h4, h5, h6⟩ := hr
  unfold committed at h2
  unfold created_pool negotiated_port committed at h3
  unfold camera_init
  simp only [h1, h2, h3, h4, h5, h6, ne_eq, not_true_eq_false, ↓reduceIte]
  split <;> simp [setup_calls, capture_unwind, negotiated_port, committed]

theorem camera_init_reaches_sending_state (d : Driver) (s : CameraState) (w h f : Int)
    (pool : MMAL_POOL_T) (queue : MMAL_QUEUE_T) (hr : ReachesSending d w h f pool queue) :
    (camera_init d s w h f).state.camera.isSome = true
    ∧ (camera_init d s w h f).state.pool.isSome = true
    ∧ (camera_init d s w h f).state.callback_queue = some queue
    ∧ (camera_init d s w h f).state.camera_output = some (select_video_port d.camera) := by
  obtain ⟨h1, h2, h3, h4, h5, h6⟩ := hr
  unfold committed at h2
  unfold created_pool negotiated_port committed at h3
  unfold camera_init
  simp only [h1, h2, h3, h4, h5, h6, ne_eq, not_true_eq_false, ↓reduceIte]
  split <;> simp

theorem camera_init_success_reaches (d : Driver) (s : CameraState) (w h f : Int)
    (hok : (camera_init d s w h f).ret = 0) :
    ∃ pool queue, ReachesSending d w h f pool queue
      ∧ d.port_parameter_set_capture 1 = MMAL_SUCCESS := by
  by_cases h1 : d.component_create = MMAL_SUCCESS
  swap
  · simp [camera_init, h1] at hok
  by_cases h2 : (committed d w h f).1 = MMAL_SUCCESS
  swap
  · unfold committed at h2
    simp [camera_init, h1, h2] at hok
  cases h3 : created_pool d w h f with
  | none =>
    unfold committed at h2
    unfold created_pool negotiated_port committed at h3
    simp [camera_init, h1, h2, h3] at hok
  | some pool =>
    cases h4 : d.queue_create with
    | none =>
      unfold committed at h2
      unfold created_pool negotiated_port committed at h3
      simp [camera_init, h1, h2, h3, h4] at hok
    | some queue =>
      by_cases h5 : d.port_enable = MMAL_SUCCESS
      swap
      · unfold committed at h2
        unfold created_pool negotiated_port committed at h3
        simp [camera_init, h1, h2, h3, h4, h5] at hok
      by_cases h6 : d.component_enable = MMAL_SUCCESS
      swap
      · unfold committed at h2
        unfold created_pool negotiated_port committed at h3
        simp [camera_init, h1, h2, h3, h4, h5, h6] at hok
      have hr : ReachesSending d w h f pool queue := ⟨h1, h2, h3, h4, h5, h6⟩
      refine ⟨pool, queue, hr, ?_⟩
      have hret := (camera_init_reaches_sending d s w h f pool queue hr).2
      rw [hret] at hok
      by_contra hne
      simp [hne] at hok

theorem camera_init_success_state (d : Driver) (s : CameraState) (w h f : Int)
    (hok : (camera_init d s w h f).ret = 0) :
    ∃ camera pool queue,
      (camera_init d s w h f).state.camera = some camera
      ∧ (camera_init d s w h f).state.pool = some pool
      ∧ (camera_init d s w h f).state.callback_queue = some queue
      ∧ (camera_init d s w h f).state.camera_output = some (select_video_port d.camera) := by
  obtain ⟨pool, queue, hr, _⟩ := camera_init_success_reaches d s w h f hok
  obtain ⟨h1, h2, h3, h4⟩ := camera_init_reaches_sending_state d s w h f pool queue hr
  obtain ⟨camera, hc⟩ := Option.isSome_iff_exists.mp h1
  obtain ⟨pool2, hp⟩ := Option.isSome_iff_exists.mp h2
  exact ⟨camera, pool2, queue, hc, hp, h3, h4⟩

theorem countP_send_pool_buffers (d : Driver) (port : Option Nat) (n : Nat)
    (q : List MMAL_BUFFER_HEADER_T) (p : Call → Bool)
    (hp : ∀ c, c.isBufferCall = true → p c = false) :
    (send_pool_buffers d port n q).2.countP p = 0 := by
  rw [List.countP_eq_zero]
  intro c hc
  simp [hp c (send_pool_buffers_buffer_calls d port n q c hc)]

theorem any_send_pool_buffers (d : Driver) (port : Option Nat) (n : Nat)
    (q : List MMAL_BUFFER_HEADER_T) (p : Call → Bool)
    (hp : ∀ c, c.isBufferCall = true → p c = false) :
    (send_pool_buffers d port n q).2.any p = false := by
  rw [List.any_eq_false]
  intro c hc
  simp [hp c (send_pool_buffers_buffer_calls d port n q c hc)]

theorem isBufferCall_not_lifecycle (c : Call) (hc : c.isBufferCall = true) :
    c.isFatalFailure = false ∧ c.isComponentCreate = false
    ∧ c.isComponentDestroy = false ∧ c.isPoolCreate = false ∧ c.isPoolCreated = false
    ∧ c.isPoolDestroy = false ∧ c.isQueueCreated = false ∧ c.isQueueDestroy = false
    ∧ c.isPortEnabled = false ∧ c.isPortDisable = false
    ∧ c.isComponentEnabled = false ∧ c.isComponentDisable = false := by
  cases c <;> simp_all [Call.isBufferCall, Call.isFatalFailure, Call.isComponentCreate,
    Call.isComponentDestroy, Call.isPoolCreate, Call.isPoolCreated, Call.isPoolDestroy,
    Call.isQueueCreated, Call.isQueueDestroy, Call.isPortEnabled, Call.isPortDisable,
    Call.isComponentEnabled, Call.isComponentDisable]

theorem filter_send_pool_buffers (d : Driver) (port : Option Nat) (n : Nat)
    (q : List MMAL_BUFFER_HEADER_T) :
    (send_pool_buffers d port n q).2.filter Call.isPoolCreate = [] := by
  rw [List.filter_eq_nil_iff]
  intro c hc
  simp [(isBufferCall_not_lifecycle c (send_pool_buffers_buffer_calls d port n q c hc)).2.2.2.1]

theorem frame_bytes_exact (w h : Int) (hw : 0 < w) (hh : 0 < h)
    (hfit : w * h * 3 ≤ 2147483647) : frame_bytes w h = (w * h * 3).toNat := by
  have hp : 0 < w * h := mul_pos hw hh
  unfold frame_bytes int_mul wrap_int to_uint32
  generalize w * h = p at hp hfit
  have e1 : (p + 2147483648) % 4294967296 - 2147483648 = p := by omega
  rw [e1]
  have e2 : (p * 3 + 2147483648) % 4294967296 - 2147483648 = p * 3 := by omega
  rw [e2]
  have e3 : p * 3 % 4294967296 = p * 3 := by omega
  rw [e3]

theorem count_id_filter (q : List MMAL_BUFFER_HEADER_T)
    (hnd : (q.map (fun b => b.id)).Nodup) (p : MMAL_BUFFER_HEADER_T → Bool)
    (b : MMAL_BUFFER_HEADER_T) (hb : b ∈ q) :
    ((q.filter p).map (fun b => b.id)).count b.id = if p b = true then 1 else 0 := by
  have hsub : ((q.filter p).map (fun b => b.id)).Nodup :=
    hnd.sublist ((List.filter_sublist q).map _)
  by_cases hp : p b = true
  · rw [if_pos hp]
    apply List.count_eq_one_of_mem hsub
    exact List.mem_map_of_mem _ (List.mem_filter.mpr ⟨hb, hp⟩)
  · rw [if_neg hp]
    apply List.count_eq_zero_of_not_mem
    intro hmem
    obtain ⟨b2, hb2, hid⟩ := List.mem_map.mp hmem
    have hb2q := (List.mem_filter.mp hb2).1
    have heq : b2 = b := List.inj_on_of_nodup_map hnd hb2q hb hid
    rw [heq] at hb2
    exact hp (List.mem_filter.mp hb2).2

theorem length_filter_fail_add (d : Driver) (q : List MMAL_BUFFER_HEADER_T) :
    (q.filter (fun b => decide (d.port_send_buffer b = MMAL_SUCCESS))).length
      + (q.filter (fun b => decide (d.port_send_buffer b ≠ MMAL_SUCCESS))).length
      = q.length := by
  induction q with
  | nil => rfl
  | cons b rest ih =>
    by_cases hs : d.port_send_buffer b = MMAL_SUCCESS
    · simp [List.filter_cons, hs] at ih ⊢
      omega
    · simp [List.filter_cons, hs] at ih ⊢
      omega

/-- C7: for every port and buffer `camera_buffer_callback` issues exactly one
call on the buffer: a `mmal_queue_put` into the queue registered as the port's
user data when there is one (and then no release), a
`mmal_buffer_header_release` when there is none (and then no put). -/
theorem camera_buffer_callback_one_action (port : MMAL_PORT_T)
    (buffer : MMAL_BUFFER_HEADER_T) :
    (camera_buffer_callback port buffer).length = 1
    ∧ delivered (camera_buffer_callback port buffer)
        = (port.userdata.map (fun q => (q.id, buffer.id))).toList
    ∧ released (camera_buffer_callback port buffer)
        = (if port.userdata.isSome then [] else [buffer.id])
    ∧ (delivered (camera_buffer_callback port buffer)).length
        + (released (camera_buffer_callback port buffer)).length = 1 := by
  unfold camera_buffer_callback
  cases port.userdata <;>
    simp [delivered, released, Call.deliveredBuffer, Call.releasedBuffer]

/-- C10: once the component is created, the capture port stored in the session
depends only on the number of output ports: it is output index 1 for every
component with at least two output ports and output index 0 for every
component with exactly one, and the stored index is always below the number
of output ports. -/
theorem camera_init_selects_port (d : Driver) (s : CameraState) (w h f : Int)
    (hc : d.component_create = MMAL_SUCCESS) :
    (camera_init d s w h f).state.camera_output
        = some (if 2 ≤ d.camera.output_num then 1 else 0)
    ∧ (2 ≤ d.camera.output_num → (camera_init d s w h f).state.camera_output = some 1)
    ∧ (d.camera.output_num = 1 → (camera_init d s w h f).state.camera_output = some 0)
    ∧ ∀ i, (camera_init d s w h f).state.camera_output = some i →
        i < d.camera.output_num := by
  have hsel : (camera_init d s w h f).state.camera_output
      = some (select_video_port d.camera) := by
    unfold camera_init
    simp only [hc, ne_eq, not_true_eq_false, ↓reduceIte]
    repeat' split
    all_goals rfl
  have hpos : 0 < d.camera.output_num := d.camera.has_output
  rw [hsel]
  unfold select_video_port
  refine ⟨rfl, ?_, ?_, ?_⟩
  · intro h2
    simp [h2]
  · intro h1
    simp [h1]
  · intro i hi
    simp only [ge_iff_le, Option.some.injEq] at hi
    subst hi
    split <;> omega

theorem camera_init_selects_port_witness :
    (camera_init good_driver zero_state 640 480 30).state.camera_output = some 1
    ∧ (camera_init single_port_driver zero_state 640 480 30).state.camera_output = some 0 :=
  ⟨(camera_init_selects_port good_driver zero_state 640 480 30 rfl).2.1 (by decide),
   (camera_init_selects_port single_port_driver zero_state 640 480 30 rfl).2.2.1
     (by decide)⟩

/-- C4: a second `camera_release` issues no driver call and leaves the session
record as the first one left it, whatever the record and the driver answers;
`camera_release` on the all-zero record issues no call and changes nothing. -/
theorem camera_release_idempotent (d1 d2 : Driver) (s : CameraState) :
    (camera_release d2 (camera_release d1 s).state).trace = []
    ∧ (camera_release d2 (camera_release d1 s).state).state = (camera_release d1 s).state
    ∧ (camera_release d1 zero_state).trace = []
    ∧ (camera_release d1 zero_state).state = zero_state := by
  refine ⟨?_, ?_, rfl, rfl⟩
  · unfold camera_release
    cases hcam : s.camera <;> simp [hcam]
  · unfold camera_release
    cases hcam : s.camera <;> simp [hcam]

/-- C3, as stated, fails: after a successful `camera_init` the pool is
destroyed before the queue, not after it. -/
theorem camera_release_order_differs :
    (camera_init good_driver zero_state 640 480 30).ret = 0
    ∧ (camera_release good_driver (camera_init good_driver zero_state 640 480 30).state).trace
      ≠ [Call.port_parameter_set_capture (some 1) 0 0,
         Call.port_disable (some 1) 0,
         Call.component_disable 0,
         Call.queue_destroy 7,
         Call.port_pool_destroy (some 1),
         Call.component_destroy] := by
  decide

/-- C3, amended: on a session record on which `camera_init` returned 0, and
whatever the driver answers, `camera_release` issues exactly: capture
parameter set to 0, port disable, component disable, pool destroy, queue
destroy, component destroy, in this order. -/
theorem camera_release_after_init (d d2 : Driver) (s : CameraState) (w h f : Int)
    (hok : (camera_init d s w h f).ret = 0) :
    ∃ queue, (camera_init d s w h f).state.callback_queue = some queue
      ∧ (camera_release d2 (camera_init d s w h f).state).trace
        = [Call.port_parameter_set_capture (some (select_video_port d.camera)) 0
             (d2.port_parameter_set_capture 0),
           Call.port_disable (some (select_video_port d.camera)) d2.port_disable,
           Call.component_disable d2.component_disable,
           Call.port_pool_destroy (some (select_video_port d.camera)),
           Call.queue_destroy queue.id,
           Call.component_destroy] := by
  obtain ⟨camera, pool, queue, h1, h2, h3, h4⟩ := camera_init_success_state d s w h f hok
  refine ⟨queue, h3, ?_⟩
  unfold camera_release
  simp [h1, h2, h3, h4]

theorem camera_release_after_init_witness :
    (camera_init good_driver zero_state 640 480 30).ret = 0
    ∧ ∃ queue, (camera_init good_driver zero_state 640 480 30).state.callback_queue
          = some queue
      ∧ (camera_release capture_fail_driver
            (camera_init good_driver zero_state 640 480 30).state).trace
        = [Call.port_parameter_set_capture (some (select_video_port good_driver.camera)) 0
             (capture_fail_driver.port_parameter_set_capture 0),
           Call.port_disable (some (select_video_port good_driver.camera))
             capture_fail_driver.port_disable,
           Call.component_disable capture_fail_driver.component_disable,
           Call.port_pool_destroy (some (select_video_port good_driver.camera)),
           Call.queue_destroy queue.id,
           Call.component_destroy] :=
  ⟨by decide,
   camera_release_after_init good_driver capture_fail_driver zero_state 640 480 30
     (by decide)⟩

/-- C5: the code at the failing inputs.  After a rejected format commit
`camera_init` returns -1 and leaves `state->camera` set, so that
`camera_release` runs in full and the component is destroyed twice over the
sequence; after a failed queue creation the pool is destroyed twice as well. -/
theorem camera_release_after_failed_init_destroys_again :
    (camera_init commit_reject_driver zero_state 640 480 30).ret = -1
    ∧ ((camera_init commit_reject_driver zero_state 640 480 30).trace
        ++ (camera_release commit_reject_driver
              (camera_init commit_reject_driver zero_state 640 480 30).state).trace).countP
        Call.isComponentDestroy = 2
    ∧ (camera_init queue_fail_driver zero_state 640 480 30).ret = -1
    ∧ ((camera_init queue_fail_driver zero_state 640 480 30).trace
        ++ (camera_release queue_fail_driver
              (camera_init queue_fail_driver zero_state 640 480 30).state).trace).countP
        Call.isPoolDestroy = 2 := by
  decide

/-- C6, as stated, fails: when the capture start fails the trace does not end
with component disable, port disable, queue destroy, pool destroy, component
destroy. -/
theorem camera_init_capture_unwind_order_differs :
    (camera_init capture_fail_driver zero_state 640 480 30).ret = -1
    ∧ ¬ ([Call.port_parameter_set_capture (some 1) 1 1,
          Call.component_disable 0,
          Call.port_disable (some 1) 0,
          Call.queue_destroy 7,
          Call.port_pool_destroy (some 1),
          Call.component_destroy]
        <:+ (camera_init capture_fail_driver zero_state 640 480 30).trace) := by
  decide

/-- C6, amended: when every call up to the component enable succeeds and the
capture start fails, `camera_init` returns -1 and the calls after the failed
capture start, the last calls of the trace, are port disable, component
disable, queue destroy, pool destroy, component destroy, in this order. -/
theorem camera_init_capture_unwind (d : Driver) (s : CameraState) (w h f : Int)
    (pool : MMAL_POOL_T) (queue : MMAL_QUEUE_T) (hr : ReachesSending d w h f pool queue)
    (hfail : d.port_parameter_set_capture 1 ≠ MMAL_SUCCESS) :
    (camera_init d s w h f).ret = -1
    ∧ [Call.port_parameter_set_capture (some (select_video_port d.camera)) 1
         (d.port_parameter_set_capture 1),
       Call.port_disable (some (select_video_port d.camera)) d.port_disable,
       Call.component_disable d.component_disable,
       Call.queue_destroy queue.id,
       Call.port_pool_destroy (some (select_video_port d.camera)),
       Call.component_destroy]
      <:+ (camera_init d s w h f).trace := by
  obtain ⟨ht, hret⟩ := camera_init_reaches_sending d s w h f pool queue hr
  rw [ht, hret]
  simp only [hfail, ne_eq, not_false_eq_true, ↓reduceIte, capture_unwind, true_and]
  exact List.suffix_append _ _

theorem camera_init_capture_unwind_witness :
    (camera_init capture_fail_driver zero_state 640 480 30).ret = -1 :=
  (camera_init_capture_unwind capture_fail_driver zero_state 640 480 30
    ⟨3, buffers3⟩ ⟨7⟩ ⟨rfl, rfl, rfl, rfl, rfl, rfl⟩ (by decide)).1

/-- C1: once the component is created, `camera_init` returns 0 exactly when
the driver answers every later fatal call with success, and -1 otherwise.  At
each of the six failure points (format commit rejected, pool creation returns
NULL, queue creation returns NULL, port enable fails, component enable fails,
capture start fails) it returns -1 and its trace is the calls made so far
followed by the release of what was acquired, each once and nothing else: the
component destroy alone after a rejected commit or a failed pool creation,
preceded by the pool destroy after a failed queue creation, by the queue and
pool destroys after a failed port enable, by the port disable as well after a
failed component enable, and by the port and component disables after a failed
capture start.  Hence whenever it returns -1 the trace holds one component
create and one component destroy, as many pool destroys as successful pool
creations, as many queue destroys as successful queue creations, as many port
disables as successful port enables and as many component disables as
successful component enables (each at most one); after a rejected commit it
holds one component create, one component destroy and no pool create. -/
theorem camera_init_failure_unwind (d : Driver) (s : CameraState) (w h f : Int)
    (hc : d.component_create = MMAL_SUCCESS) :
    ((camera_init d s w h f).ret = 0 ∨ (camera_init d s w h f).ret = -1)
    ∧ ((camera_init d s w h f).trace.any Call.isFatalFailure = true
        ↔ (camera_init d s w h f).ret = -1)
    ∧ ((camera_init d s w h f).ret = -1 →
        (camera_init d s w h f).trace.countP Call.isComponentCreate = 1
        ∧ (camera_init d s w h f).trace.countP Call.isComponentDestroy = 1
        ∧ (camera_init d s w h f).trace.countP Call.isPoolDestroy
            = (camera_init d s w h f).trace.countP Call.isPoolCreated
        ∧ (camera_init d s w h f).trace.countP Call.isPoolCreated ≤ 1
        ∧ (camera_init d s w h f).trace.countP Call.isQueueDestroy
            = (camera_init d s w h f).trace.countP Call.isQueueCreated
        ∧ (camera_init d s w h f).trace.countP Call.isQueueCreated ≤ 1
        ∧ (camera_init d s w h f).trace.countP Call.isPortDisable
            = (camera_init d s w h f).trace.countP Call.isPortEnabled
        ∧ (camera_init d s w h f).trace.countP Call.isPortEnabled ≤ 1
        ∧ (camera_init d s w h f).trace.countP Call.isComponentDisable
            = (camera_init d s w h f).trace.countP Call.isComponentEnabled
        ∧ (camera_init d s w h f).trace.countP Call.isComponentEnabled ≤ 1)
    ∧ ((committed d w h f).1 ≠ MMAL_SUCCESS →
        (camera_init d s w h f).ret = -1
        ∧ (camera_init d s w h f).trace.countP Call.isComponentCreate = 1
        ∧ (camera_init d s w h f).trace.countP Call.isComponentDestroy = 1
        ∧ (camera_init d s w h f).trace.countP Call.isPoolCreate = 0)
    ∧ ((camera_init d s w h f).ret = 0
        ↔ ∃ pool queue, ReachesSending d w h f pool queue
            ∧ d.port_parameter_set_capture 1 = MMAL_SUCCESS)
    ∧ ((committed d w h f).1 ≠ MMAL_SUCCESS →
        (camera_init d s w h f).ret = -1
        ∧ (camera_init d s w h f).trace
          = [Call.bcm_host_init,
             Call.component_create MMAL_SUCCESS,
             Call.port_format_commit (some (select_video_port d.camera))
               (committed d w h f).1,
             Call.component_destroy])
    ∧ ((committed d w h f).1 = MMAL_SUCCESS → created_pool d w h f = none →
        (camera_init d s w h f).ret = -1
        ∧ (camera_init d s w h f).trace
          = [Call.bcm_host_init,
             Call.component_create MMAL_SUCCESS,
             Call.port_format_commit (some (select_video_port d.camera)) MMAL_SUCCESS,
             Call.port_pool_create (some (select_video_port d.camera))
               (negotiated_port d w h f).buffer_num
               (negotiated_port d w h f).buffer_size false,
             Call.component_destroy])
    ∧ (∀ pool, (committed d w h f).1 = MMAL_SUCCESS →
        created_pool d w h f = some pool → d.queue_create = none →
        (camera_init d s w h f).ret = -1
        ∧ (camera_init d s w h f).trace
          = [Call.bcm_host_init,
             Call.component_create MMAL_SUCCESS,
             Call.port_format_commit (some (select_video_port d.camera)) MMAL_SUCCESS,
             Call.port_pool_create (some (select_video_port d.camera))
               (negotiated_port d w h f).buffer_num
               (negotiated_port d w h f).buffer_size true,
             Call.queue_create false,
             Call.port_pool_destroy (some (select_video_port d.camera)),
             Call.component_destroy])
    ∧ (∀ pool queue, (committed d w h f).1 = MMAL_SUCCESS →
        created_pool d w h f = some pool → d.queue_create = some queue →
        d.port_enable ≠ MMAL_SUCCESS →
        (camera_init d s w h f).ret = -1
        ∧ (camera_init d s w h f).trace
          = [Call.bcm_host_init,
             Call.component_create MMAL_SUCCESS,
             Call.port_format_commit (some (select_video_port d.camera)) MMAL_SUCCESS,
             Call.port_pool_create (some (select_video_port d.camera))
               (negotiated_port d w h f).buffer_num
               (negotiated_port d w h f).buffer_size true,
             Call.queue_create true,
             Call.port_enable (some (select_video_port d.camera)) d.port_enable,
             Call.queue_destroy queue.id,
             Call.port_pool_destroy (some (select_video_port d.camera)),
             Call.component_destroy])
    ∧ (∀ pool queue, (committed d w h f).1 = MMAL_SUCCESS →
        created_pool d w h f = some pool → d.queue_create = some queue →
        d.port_enable = MMAL_SUCCESS → d.component_enable ≠ MMAL_SUCCESS →
        (camera_init d s w h f).ret = -1
        ∧ (camera_init d s w h f).trace
          = [Call.bcm_host_init,
             Call.component_create MMAL_SUCCESS,
             Call.port_format_commit (some (select_video_port d.camera)) MMAL_SUCCESS,
             Call.port_pool_create (some (select_video_port d.camera))
               (negotiated_port d w h f).buffer_num
               (negotiated_port d w h f).buffer_size true,
             Call.queue_create true,
             Call.port_enable (some (select_video_port d.camera)) MMAL_SUCCESS,
             Call.component_enable d.component_enable,
             Call.port_disable (some (select_video_port d.camera)) d.port_disable,
             Call.queue_destroy queue.id,
             Call.port_pool_destroy (some (select_video_port d.camera)),
             Call.component_destroy])
    ∧ (∀ pool queue, ReachesSending d w h f pool queue →
        d.port_parameter_set_capture 1 ≠ MMAL_SUCCESS →
        (camera_init d s w h f).ret = -1
        ∧ (camera_init d s w h f).trace
          = setup_calls d w h f
            ++ (send_pool_buffers d (some (select_video_port d.camera))
                  pool.headers_num pool.queue).2
            ++ [Call.port_parameter_set_capture (some (select_video_port d.camera)) 1
                  (d.port_parameter_set_capture 1),
                Call.port_disable (some (select_video_port d.camera)) d.port_disable,
                Call.component_disable d.component_disable,
                Call.queue_destroy queue.id,
                Call.port_pool_destroy (some (select_video_port d.camera)),
                Call.component_destroy]) := by
  have hcounts : 
    ((camera_init d s w h f).ret = 0 ∨ (camera_init d s w h f).ret = -1)
        ∧ ((camera_init d s w h f).trace.any Call.isFatalFailure = true
            ↔ (camera_init d s w h f).ret = -1)
        ∧ ((camera_init d s w h f).ret = -1 →
            (camera_init d s w h f).trace.countP Call.isComponentCreate = 1
            ∧ (camera_init d s w h f).trace.countP Call.isComponentDestroy = 1
            ∧ (camera_init d s w h f).trace.countP Call.isPoolDestroy
                = (camera_init d s w h f).trace.countP Call.isPoolCreated
            ∧ (camera_init d s w h f).trace.countP Call.isPoolCreated ≤ 1
            ∧ (camera_init d s w h f).trace.countP Call.isQueueDestroy
                = (camera_init d s w h f).trace.countP Call.isQueueCreated
            ∧ (camera_init d s w h f).trace.countP Call.isQueueCreated ≤ 1
            ∧ (camera_init d s w h f).trace.countP Call.isPortDisable
                = (camera_init d s w h f).trace.countP Call.isPortEnabled
            ∧ (camera_init d s w h f).trace.countP Call.isPortEnabled ≤ 1
            ∧ (camera_init d s w h f).trace.countP Call.isComponentDisable
                = (camera_init d s w h f).trace.countP Call.isComponentEnabled
            ∧ (camera_init d s w h f).trace.countP Call.isComponentEnabled ≤ 1)
        ∧ ((committed d w h f).1 ≠ MMAL_SUCCESS →
            (camera_init d s w h f).ret = -1
            ∧ (camera_init d s w h f).trace.countP Call.isComponentCreate = 1
            ∧ (camera_init d s w h f).trace.countP Call.isComponentDestroy = 1
            ∧ (camera_init d s w h f).trace.countP Call.isPoolCreate = 0) := by
    by_cases h2 : (committed d w h f).1 = MMAL_SUCCESS
    swap
    · unfold committed at h2
      simp [camera_init, hc, h2, committed, List.countP_cons, Call.isFatalFailure,
        Call.isComponentCreate, Call.isComponentDestroy, Call.isPoolCreate,
        Call.isPoolCreated, Call.isPoolDestroy, Call.isQueueCreated, Call.isQueueDestroy,
        Call.isPortEnabled, Call.isPortDisable, Call.isComponentEnabled,
        Call.isComponentDisable]
    simp only [h2, ne_eq, not_true_eq_false, false_implies, and_true]
    cases h3 : created_pool d w h f with
    | none =>
      unfold committed at h2
      unfold created_pool negotiated_port committed at h3
      simp [camera_init, hc, h2, h3, List.countP_cons, Call.isFatalFailure,
        Call.isComponentCreate, Call.isComponentDestroy, Call.isPoolCreate,
        Call.isPoolCreated, Call.isPoolDestroy, Call.isQueueCreated, Call.isQueueDestroy,
        Call.isPortEnabled, Call.isPortDisable, Call.isComponentEnabled,
        Call.isComponentDisable]
    | some pool =>
      cases h4 : d.queue_create with
      | none =>
        unfold committed at h2
        unfold created_pool negotiated_port committed at h3
        simp [camera_init, hc, h2, h3, h4, List.countP_cons, Call.isFatalFailure,
          Call.isComponentCreate, Call.isComponentDestroy, Call.isPoolCreate,
          Call.isPoolCreated, Call.isPoolDestroy, Call.isQueueCreated, Call.isQueueDestroy,
          Call.isPortEnabled, Call.isPortDisable, Call.isComponentEnabled,
          Call.isComponentDisable]
      | some queue =>
        by_cases h5 : d.port_enable = MMAL_SUCCESS
        swap
        · unfold committed at h2
          unfold created_pool negotiated_port committed at h3
          simp [camera_init, hc, h2, h3, h4, h5, List.countP_cons, Call.isFatalFailure,
            Call.isComponentCreate, Call.isComponentDestroy, Call.isPoolCreate,
            Call.isPoolCreated, Call.isPoolDestroy, Call.isQueueCreated, Call.isQueueDestroy,
            Call.isPortEnabled, Call.isPortDisable, Call.isComponentEnabled,
            Call.isComponentDisable]
        by_cases h6 : d.component_enable = MMAL_SUCCESS
        swap
        · unfold committed at h2
          unfold created_pool negotiated_port committed at h3
          simp [camera_init, hc, h2, h3, h4, h5, h6, List.countP_cons, Call.isFatalFailure,
            Call.isComponentCreate, Call.isComponentDestroy, Call.isPoolCreate,
            Call.isPoolCreated, Call.isPoolDestroy, Call.isQueueCreated, Call.isQueueDestroy,
            Call.isPortEnabled, Call.isPortDisable, Call.isComponentEnabled,
            Call.isComponentDisable]
        have hr : ReachesSending d w h f pool queue := ⟨hc, h2, h3, h4, h5, h6⟩
        obtain ⟨ht, hret⟩ := camera_init_reaches_sending d s w h f pool queue hr
        have hcount : ∀ p : Call → Bool, (∀ c, c.isBufferCall = true → p c = false) →
            (send_pool_buffers d (some (select_video_port d.camera))
              pool.headers_num pool.queue).2.countP p = 0 :=
          fun p hp => countP_send_pool_buffers d _ _ _ p hp
        have hany := any_send_pool_buffers d (some (select_video_port d.camera))
          pool.headers_num pool.queue Call.isFatalFailure
          (fun c hc => (isBufferCall_not_lifecycle c hc).1)
        have c1 := hcount Call.isComponentCreate
          (fun c hc => (isBufferCall_not_lifecycle c hc).2.1)
        have c2 := hcount Call.isComponentDestroy
          (fun c hc => (isBufferCall_not_lifecycle c hc).2.2.1)
        have c3 := hcount Call.isPoolCreated
          (fun c hc => (isBufferCall_not_lifecycle c hc).2.2.2.2.1)
        have c4 := hcount Call.isPoolDestroy
          (fun c hc => (isBufferCall_not_lifecycle c hc).2.2.2.2.2.1)
        have c5 := hcount Call.isQueueCreated
          (fun c hc => (isBufferCall_not_lifecycle c hc).2.2.2.2.2.2.1)
        have c6 := hcount Call.isQueueDestroy
          (fun c hc => (isBufferCall_not_lifecycle c hc).2.2.2.2.2.2.2.1)
        have c7 := hcount Call.isPortEnabled
          (fun c hc => (isBufferCall_not_lifecycle c hc).2.2.2.2.2.2.2.2.1)
        have c8 := hcount Call.isPortDisable
          (fun c hc => (isBufferCall_not_lifecycle c hc).2.2.2.2.2.2.2.2.2.1)
        have c9 := hcount Call.isComponentEnabled
          (fun c hc => (isBufferCall_not_lifecycle c hc).2.2.2.2.2.2.2.2.2.2.1)
        have c10 := hcount Call.isComponentDisable
          (fun c hc => (isBufferCall_not_lifecycle c hc).2.2.2.2.2.2.2.2.2.2.2)
        by_cases h7 : d.port_parameter_set_capture 1 = MMAL_SUCCESS
        · simp only [h7, ne_eq, not_true_eq_false, ↓reduceIte] at ht hret
          rw [ht, hret]
          simp [hany, setup_calls, Call.isFatalFailure]
        · simp only [h7, ne_eq, not_false_eq_true, ↓reduceIte] at ht hret
          rw [ht, hret]
          simp [h7, hany, c1, c2, c3, c4, c5, c6, c7, c8, c9, c10, setup_calls,
            capture_unwind, List.countP_cons, List.countP_append, Call.isFatalFailure,
            Call.isComponentCreate, Call.isComponentDestroy, Call.isPoolCreate,
            Call.isPoolCreated, Call.isPoolDestroy, Call.isQueueCreated, Call.isQueueDestroy,
            Call.isPortEnabled, Call.isPortDisable, Call.isComponentEnabled,
            Call.isComponentDisable]
  refine ⟨hcounts.1, hcounts.2.1, hcounts.2.2.1, hcounts.2.2.2, ?_, ?_, ?_, ?_, ?_, ?_, ?_⟩
  · constructor
    · intro hok
      exact camera_init_success_reaches d s w h f hok
    · rintro ⟨pool, queue, hr, hcap⟩
      rw [(camera_init_reaches_sending d s w h f pool queue hr).2]
      simp [hcap]
  · intro h2
    unfold committed at h2 ⊢
    simp [camera_init, hc, h2]
  · intro h2 h3
    unfold committed at h2
    unfold created_pool negotiated_port committed at h3
    simp [camera_init, hc, h2, h3, negotiated_port, committed]
  · intro pool h2 h3 h4
    unfold committed at h2
    unfold created_pool negotiated_port committed at h3
    simp [camera_init, hc, h2, h3, h4, negotiated_port, committed]
  · intro pool queue h2 h3 h4 h5
    unfold committed at h2
    unfold created_pool negotiated_port committed at h3
    simp [camera_init, hc, h2, h3, h4, h5, negotiated_port, committed]
  · intro pool queue h2 h3 h4 h5 h6
    unfold committed at h2
    unfold created_pool negotiated_port committed at h3
    simp [camera_init, hc, h2, h3, h4, h5, h6, negotiated_port, committed]
  · intro pool queue hr hcap
    obtain ⟨ht, hret⟩ := camera_init_reaches_sending d s w h f pool queue hr
    simp only [hcap, ne_eq, not_false_eq_true, ↓reduceIte] at ht hret
    rw [ht, hret]
    simp [capture_unwind]

theorem camera_init_failure_unwind_witness :
    commit_reject_driver.component_create = MMAL_SUCCESS
    ∧ ((camera_init commit_reject_driver zero_state 640 480 30).ret = -1
      ∧ (camera_init commit_reject_driver zero_state 640 480 30).trace.countP
          Call.isComponentCreate = 1
      ∧ (camera_init commit_reject_driver zero_state 640 480 30).trace.countP
          Call.isComponentDestroy = 1
      ∧ (camera_init commit_reject_driver zero_state 640 480 30).trace.countP
          Call.isPoolCreate = 0)
    ∧ ((camera_init queue_fail_driver zero_state 640 480 30).ret = -1
      ∧ (camera_init queue_fail_driver zero_state 640 480 30).trace
        = [Call.bcm_host_init,
           Call.component_create MMAL_SUCCESS,
           Call.port_format_commit (some (select_video_port queue_fail_driver.camera))
             MMAL_SUCCESS,
           Call.port_pool_create (some (select_video_port queue_fail_driver.camera))
             (negotiated_port queue_fail_driver 640 480 30).buffer_num
             (negotiated_port queue_fail_driver 640 480 30).buffer_size true,
           Call.queue_create false,
           Call.port_pool_destroy (some (select_video_port queue_fail_driver.camera)),
           Call.component_destroy]) :=
  ⟨rfl,
   (camera_init_failure_unwind commit_reject_driver zero_state 640 480 30 rfl).2.2.2.1
     (by decide),
   (camera_init_failure_unwind queue_fail_driver zero_state 640 480 30 rfl).2.2.2.2.2.2.2.1
     ⟨3, buffers3⟩ rfl rfl rfl⟩

/-- C2, as stated, fails: for width = height = 65536 the C `int` product
`width*height*3` wraps to 0, `camera_init` returns 0 and the pool is created
with the recommended 1000 bytes per buffer, less than the mathematical
product of the dimensions. -/
theorem camera_init_pool_size_wraps :
    (camera_init good_driver zero_state 65536 65536 30).ret = 0
    ∧ (camera_init good_driver zero_state 65536 65536 30).trace.filter Call.isPoolCreate
        = [Call.port_pool_create (some 1) 3 1000 true]
    ∧ (committed good_driver 65536 65536 30).2.buffer_size_recommended = 1000
    ∧ ¬ (1000 = max 1000 ((65536 * 65536 * 3 : Int).toNat))
    ∧ ¬ ((65536 * 65536 * 3 : Int).toNat ≤ 1000) := by
  decide

/-- C2, amended: for width > 0, height > 0, framerate > 0 whose product
`width*height*3` fits a C `int`, and every pair of recommended values the
driver publishes at the format commit, if `camera_init` returns 0 then its only
pool creation asks for max(buffer_num_recommended, 3) buffers, hence at least
3, of max(buffer_size_recommended, width*height*3) bytes, hence at least
width*height*3. -/
theorem camera_init_pool_size (d : Driver) (s : CameraState) (w h f : Int)
    (hw : 0 < w) (hh : 0 < h) (_hf : 0 < f) (hfit : w * h * 3 ≤ 2147483647)
    (hok : (camera_init d s w h f).ret = 0) :
    (camera_init d s w h f).trace.filter Call.isPoolCreate
      = [Call.port_pool_create (some (select_video_port d.camera))
          (max (committed d w h f).2.buffer_num_recommended 3)
          (max (committed d w h f).2.buffer_size_recommended (w * h * 3).toNat) true]
    ∧ 3 ≤ max (committed d w h f).2.buffer_num_recommended 3
    ∧ (w * h * 3).toNat
        ≤ max (committed d w h f).2.buffer_size_recommended (w * h * 3).toNat := by
  obtain ⟨pool, queue, hr, hcap⟩ := camera_init_success_reaches d s w h f hok
  obtain ⟨ht, _⟩ := camera_init_reaches_sending d s w h f pool queue hr
  simp only [hcap, ne_eq, not_true_eq_false, ↓reduceIte] at ht
  have hnum : (negotiated_port d w h f).buffer_num
      = max (committed d w h f).2.buffer_num_recommended 3 := by
    simp only [negotiated_port, set_buffer_requirements]
    split <;> omega
  have hsize : (negotiated_port d w h f).buffer_size
      = max (committed d w h f).2.buffer_size_recommended (w * h * 3).toNat := by
    simp only [negotiated_port, set_buffer_requirements, frame_bytes_exact w h hw hh hfit]
    split <;> omega
  refine ⟨?_, le_max_right _ _, le_max_right _ _⟩
  rw [ht, List.filter_append, List.filter_append, filter_send_pool_buffers, ← hnum, ← hsize]
  simp [setup_calls, List.filter_cons, Call.isPoolCreate]

theorem camera_init_pool_size_witness :
    (camera_init good_driver zero_state 640 480 30).ret = 0
    ∧ (camera_init good_driver zero_state 640 480 30).trace.filter Call.isPoolCreate
      = [Call.port_pool_create (some (select_video_port good_driver.camera))
          (max (committed good_driver 640 480 30).2.buffer_num_recommended 3)
          (max (committed good_driver 640 480 30).2.buffer_size_recommended
            ((640 : Int) * 480 * 3).toNat) true] :=
  ⟨by decide,
   (camera_init_pool_size good_driver zero_state 640 480 30 (by decide) (by decide)
     (by decide) (by decide) (by decide)).1⟩

/-- C8: when `camera_init` reaches the sending loop with a pool whose queue
holds its `headers_num` buffers, of distinct identities, every buffer of the
pool is taken and submitted exactly once, exactly the buffers whose submission
fails are released, each once, the accepted buffers are the other ones (N-K of
them when K fail), and the capture start command is issued after all these
calls, whatever the number of accepted buffers. -/
theorem camera_init_initial_seeding (d : Driver) (s : CameraState) (w h f : Int)
    (pool : MMAL_POOL_T) (queue : MMAL_QUEUE_T) (hr : ReachesSending d w h f pool queue)
    (hfull : pool.queue.length = pool.headers_num)
    (hdistinct : (pool.queue.map (fun b => b.id)).Nodup) :
    taken (camera_init d s w h f).trace = pool.queue.map (fun b => b.id)
    ∧ submitted (camera_init d s w h f).trace = pool.queue.map (fun b => b.id)
    ∧ released (camera_init d s w h f).trace
        = (pool.queue.filter (fun b => decide (d.port_send_buffer b ≠ MMAL_SUCCESS))).map
            (fun b => b.id)
    ∧ accepted (camera_init d s w h f).trace
        = (pool.queue.filter (fun b => decide (d.port_send_buffer b = MMAL_SUCCESS))).map
            (fun b => b.id)
    ∧ (∀ b ∈ pool.queue,
        (taken (camera_init d s w h f).trace).count b.id = 1
        ∧ (submitted (camera_init d s w h f).trace).count b.id = 1
        ∧ (released (camera_init d s w h f).trace).count b.id
            = (if d.port_send_buffer b ≠ MMAL_SUCCESS then 1 else 0)
        ∧ (accepted (camera_init d s w h f).trace).count b.id
            = (if d.port_send_buffer b = MMAL_SUCCESS then 1 else 0))
    ∧ (accepted (camera_init d s w h f).trace).length
        = pool.headers_num - (released (camera_init d s w h f).trace).length
    ∧ (released (camera_init d s w h f).trace).length ≤ pool.headers_num
    ∧ (∃ rest, (camera_init d s w h f).trace
        = setup_calls d w h f
          ++ pool_calls d (some (select_video_port d.camera)) pool.queue
          ++ Call.port_parameter_set_capture (some (select_video_port d.camera)) 1
              (d.port_parameter_set_capture 1) :: rest) := by
  obtain ⟨ht, _⟩ := camera_init_reaches_sending d s w h f pool queue hr
  rw [← hfull, send_pool_buffers_full] at ht
  have obs : ∀ g : Call → Option Nat,
      (∀ c ∈ setup_calls d w h f, g c = none) →
      (∀ p v st, g (Call.port_parameter_set_capture p v st) = none) →
      (∀ c ∈ capture_unwind d queue, g c = none) →
      (camera_init d s w h f).trace.filterMap g
        = (pool_calls d (some (select_video_port d.camera)) pool.queue).filterMap g := by
    intro g h1 h2 h3
    rw [ht]
    have e1 : (setup_calls d w h f).filterMap g = [] :=
      List.filterMap_eq_nil_iff.mpr h1
    have e3 : (capture_unwind d queue).filterMap g = [] :=
      List.filterMap_eq_nil_iff.mpr h3
    by_cases hcap : d.port_parameter_set_capture 1 = MMAL_SUCCESS
    · simp [List.filterMap_append, List.filterMap_cons, h2, e1, hcap]
    · simp [List.filterMap_append, List.filterMap_cons, h2, e1, e3, hcap]
  have ht1 : taken (camera_init d s w h f).trace = pool.queue.map (fun b => b.id) := by
    rw [← taken_pool_calls d (some (select_video_port d.camera))]
    exact obs Call.takenBuffer
      (by simp [setup_calls, Call.takenBuffer]) (by simp [Call.takenBuffer])
      (by simp [capture_unwind, Call.takenBuffer])
  have ht2 : submitted (camera_init d s w h f).trace = pool.queue.map (fun b => b.id) := by
    rw [← submitted_pool_calls d (some (select_video_port d.camera))]
    exact obs Call.submittedBuffer
      (by simp [setup_calls, Call.submittedBuffer]) (by simp [Call.submittedBuffer])
      (by simp [capture_unwind, Call.submittedBuffer])
  have ht3 : released (camera_init d s w h f).trace
      = (pool.queue.filter (fun b => decide (d.port_send_buffer b ≠ MMAL_SUCCESS))).map
          (fun b => b.id) := by
    rw [← released_pool_calls d (some (select_video_port d.camera))]
    exact obs Call.releasedBuffer
      (by simp [setup_calls, Call.releasedBuffer]) (by simp [Call.releasedBuffer])
      (by simp [capture_unwind, Call.releasedBuffer])
  have ht4 : accepted (camera_init d s w h f).trace
      = (pool.queue.filter (fun b => decide (d.port_send_buffer b = MMAL_SUCCESS))).map
          (fun b => b.id) := by
    rw [← accepted_pool_calls d (some (select_video_port d.camera))]
    exact obs Call.acceptedBuffer
      (by simp [setup_calls, Call.acceptedBuffer]) (by simp [Call.acceptedBuffer])
      (by simp [capture_unwind, Call.acceptedBuffer])
  have hlen := length_filter_fail_add d pool.queue
  refine ⟨ht1, ht2, ht3, ht4, ?_, ?_, ?_, ?_⟩
  · intro b hb
    have hmem : b.id ∈ pool.queue.map (fun b => b.id) := List.mem_map_of_mem _ hb
    refine ⟨?_, ?_, ?_, ?_⟩
    · rw [ht1]
      exact List.count_eq_one_of_mem hdistinct hmem
    · rw [ht2]
      exact List.count_eq_one_of_mem hdistinct hmem
    · rw [ht3, count_id_filter pool.queue hdistinct _ b hb]
      simp
    · rw [ht4, count_id_filter pool.queue hdistinct _ b hb]
      simp
  · rw [ht3, ht4, List.length_map, List.length_map]
    omega
  · rw [ht3, List.length_map]
    omega
  · exact ⟨_, ht⟩

theorem camera_init_initial_seeding_witness :
    released (camera_init flaky_driver zero_state 640 480 30).trace = [11]
    ∧ accepted (camera_init flaky_driver zero_state 640 480 30).trace = [10, 12] :=
  have hw := camera_init_initial_seeding flaky_driver zero_state 640 480 30
    ⟨3, buffers3⟩ ⟨7⟩ ⟨rfl, rfl, rfl, rfl, rfl, rfl⟩ rfl (by decide)
  ⟨hw.2.2.1, hw.2.2.2.1⟩

end CameraInit
